import Mathlib

/-!
Verification of the JSON-file-backed record-repository pattern of this
repository: the library manager agent (`library_agent.py`) and the movie
agent (`movie_agent.py`).

Modelling conventions:
* Python dict records become fixed-schema structures (`Book`, `Movie`);
  every record created by the code has exactly these keys.
* Python `float` ratings are modelled as rationals `ℚ`: the code only
  compares, stores and averages them.
* The JSON file content is modelled by a small JSON value type (`Json`);
  the Python `json` module's text layer (`dump`/`load` between values and
  text) is an external boundary assumed faithful. Python distinguishes
  JSON integers from floats, hence separate `int` and `num` constructors.
* The backing file is a `FileSt`: absent, present-but-not-valid-JSON
  (`malformed`), or present with a parsed JSON value (`content`).
* `datetime.now()` is passed in explicitly as the `today` argument.
* OS-level write failures are outside the model: `save_books` models the
  happy path in which the write succeeds.
-/

/-- Python's `str.strip()` with no argument: drop leading and trailing
whitespace (ASCII-level model). -/
def pyStrip (s : String) : String :=
  String.mk (((s.data.dropWhile Char.isWhitespace).reverse.dropWhile
    Char.isWhitespace).reverse)

/-- Python's `str.lower()` (ASCII-level model). -/
def pyLower (s : String) : String :=
  String.mk (s.data.map Char.toLower)

namespace Lib

/-- A JSON value as produced/consumed by Python's `json` module.
Python keeps integers and floats distinct, hence both `int` and `num`. -/
inductive Json where
  | null : Json
  | bool (b : Bool) : Json
  | int (n : Int) : Json
  | num (q : ℚ) : Json
  | str (s : String) : Json
  | arr (xs : List Json) : Json
  | obj (kvs : List (String × Json)) : Json

/-- One book record, the fixed schema of the dicts built by
`LibraryAgent.add_book`. -/
structure Book where
  id : Int
  title : String
  author : String
  genre : String
  year : Option Int
  isbn : Option String
  rating : Option ℚ
  status : String
  added_date : String
  notes : String
deriving DecidableEq, Repr

/-- State of the JSON backing file. -/
inductive FileSt where
  | absent : FileSt
  | malformed : FileSt
  | content (j : Json) : FileSt

/-- The agent state: the in-memory list `self.books` plus the backing file. -/
structure LibState where
  books : List Book
  file : FileSt

def encodeYear (y : Option Int) : Json :=
  match y with
  | none => Json.null
  | some n => Json.int n

def encodeIsbn (i : Option String) : Json :=
  match i with
  | none => Json.null
  | some s => Json.str s

def encodeRating (r : Option ℚ) : Json :=
  match r with
  | none => Json.null
  | some q => Json.num q

/-- Serialization of one book dict, as `json.dump` sees it. -/
def encodeBook (b : Book) : Json :=
  Json.obj [("id", Json.int b.id), ("title", Json.str b.title),
    ("author", Json.str b.author), ("genre", Json.str b.genre),
    ("year", encodeYear b.year), ("isbn", encodeIsbn b.isbn),
    ("rating", encodeRating b.rating), ("status", Json.str b.status),
    ("added_date", Json.str b.added_date), ("notes", Json.str b.notes)]

def encodeBooks (books : List Book) : Json :=
  Json.arr (books.map encodeBook)

def asInt (j : Json) : Option Int :=
  match j with
  | Json.int n => some n
  | _ => none

def asStr (j : Json) : Option String :=
  match j with
  | Json.str s => some s
  | _ => none

def asOptInt (j : Json) : Option (Option Int) :=
  match j with
  | Json.null => some none
  | Json.int n => some (some n)
  | _ => none

def asOptStr (j : Json) : Option (Option String) :=
  match j with
  | Json.null => some none
  | Json.str s => some (some s)
  | _ => none

def asOptNum (j : Json) : Option (Option ℚ) :=
  match j with
  | Json.null => some none
  | Json.num q => some (some q)
  | _ => none

/-- Reading one book record back from its JSON object. -/
def decodeBook (j : Json) : Option Book :=
  match j with
  | Json.obj kvs => do
      let i ← (kvs.lookup "id").bind asInt
      let t ← (kvs.lookup "title").bind asStr
      let a ← (kvs.lookup "author").bind asStr
      let g ← (kvs.lookup "genre").bind asStr
      let y ← (kvs.lookup "year").bind asOptInt
      let ib ← (kvs.lookup "isbn").bind asOptStr
      let r ← (kvs.lookup "rating").bind asOptNum
      let st ← (kvs.lookup "status").bind asStr
      let ad ← (kvs.lookup "added_date").bind asStr
      let no ← (kvs.lookup "notes").bind asStr
      some { id := i, title := t, author := a, genre := g, year := y,
             isbn := ib, rating := r, status := st, added_date := ad,
             notes := no }
  | _ => none

def decodeBookList (xs : List Json) : Option (List Book) :=
  match xs with
  | [] => some []
  | j :: rest => do
      let b ← decodeBook j
      let bs ← decodeBookList rest
      some (b :: bs)

def decodeBooks (j : Json) : Option (List Book) :=
  match j with
  | Json.arr xs => decodeBookList xs
  | _ => none

/-- `LibraryAgent.load_books`: missing file and non-JSON content both give
the empty collection (the `try`/`except` structure of the source).  A file
holding valid JSON that is not an array of book records is outside the
model (the source would return the raw parsed data); files produced by
`save_books` always decode, so the `getD []` default is never reached on
them. -/
def load_books (fs : FileSt) : List Book :=
  match fs with
  | FileSt.absent => []
  | FileSt.malformed => []
  | FileSt.content j => (decodeBooks j).getD []

/-- The file content written by `save_books`: the full re-serialization of
the in-memory collection. -/
def writeFile (books : List Book) : FileSt :=
  FileSt.content (encodeBooks books)

/-- `LibraryAgent.save_books` on the happy path: overwrite the file with
the serialized collection and report success. -/
def save_books (st : LibState) : Bool × LibState :=
  (true, { st with file := writeFile st.books })

/-- `LibraryAgent._generate_book_id`: the running `max` of Python's
`max(book['id'] for book in self.books)`. -/
def max_id (b : Book) (bs : List Book) : Int :=
  bs.foldl (fun m x => max m x.id) b.id

/-- `LibraryAgent._generate_book_id`: 1 on an empty collection, otherwise
max existing id + 1. -/
def generate_book_id (books : List Book) : Int :=
  match books with
  | [] => 1
  | b :: bs => max_id b bs + 1

/-- `LibraryAgent.add_book`: builds the record (stripping the string
fields), appends it, persists, and returns it.  No validation is
performed.  `today` stands for `datetime.now().strftime("%Y-%m-%d")`. -/
def add_book (st : LibState) (title : String) (author : String)
    (genre : String) (year : Option Int) (isbn : Option String)
    (today : String) : Book × LibState :=
  let b : Book :=
    { id := generate_book_id st.books, title := pyStrip title,
      author := pyStrip author, genre := pyStrip genre, year := year,
      isbn := isbn, rating := none, status := "unread",
      added_date := today, notes := "" }
  let books2 := st.books ++ [b]
  (b, { books := books2, file := writeFile books2 })

/-- `LibraryAgent.get_book_by_id`: linear scan, first match or `none`. -/
def get_book_by_id (books : List Book) (book_id : Int) : Option Book :=
  books.find? (fun b => b.id == book_id)

/-- The in-place mutation `book['rating'] = rating` applied to the record
`get_book_by_id` returned, i.e. the first record with the given id. -/
def set_rating_first (books : List Book) (book_id : Int) (r : ℚ) : List Book :=
  match books with
  | [] => []
  | b :: bs =>
      if b.id = book_id then { b with rating := some r } :: bs
      else b :: set_rating_first bs book_id r

/-- `LibraryAgent.rate_book`: range check first (`0 <= rating <= 5`),
then locate, mutate, persist. -/
def rate_book (st : LibState) (book_id : Int) (rating : ℚ) : Bool × LibState :=
  if 0 ≤ rating ∧ rating ≤ 5 then
    match get_book_by_id st.books book_id with
    | some _ =>
        let books2 := set_rating_first st.books book_id rating
        (true, { books := books2, file := writeFile books2 })
    | none => (false, st)
  else (false, st)

/-- Python truthiness of `book.get("rating")`: `None` and `0.0` are falsy. -/
def truthy (r : Option ℚ) : Bool :=
  match r with
  | none => false
  | some q => decide (q ≠ 0)

/-- The sort key `x.get("rating", 0)`. -/
def ratingKey (b : Book) : ℚ :=
  b.rating.getD 0

/-- The filter of `LibraryAgent.get_recommendations`:
`book.get("rating") and book["rating"] >= min_rating and
(genre is None or book["genre"].lower() == genre.lower())`. -/
def recOk (genre : Option String) (min_rating : ℚ) (b : Book) : Bool :=
  truthy b.rating && decide (min_rating ≤ ratingKey b) &&
    (match genre with
     | none => true
     | some g => pyLower b.genre == pyLower g)

/-- Insert into a rating-descending list, after all entries with a
strictly larger key and before any entry with an equal or smaller key. -/
def insertDesc (a : Book) (l : List Book) : List Book :=
  match l with
  | [] => [a]
  | b :: bs =>
      if ratingKey a < ratingKey b then b :: insertDesc a bs
      else a :: b :: bs

/-- The stable descending sort by rating performed by
`recommendations.sort(key=lambda x: x.get("rating", 0), reverse=True)`.
CPython's sort is stable, and the stable sort for a given key is unique,
so this insertion-sort formulation is the same function. -/
def sortDesc (l : List Book) : List Book :=
  l.foldr insertDesc []

/-- `LibraryAgent.get_recommendations`: filter, then the stable
descending sort by rating. -/
def get_recommendations (books : List Book) (genre : Option String)
    (min_rating : ℚ) : List Book :=
  sortDesc (books.filter (recOk genre min_rating))

/-- The list comprehension `[book for book in self.books if
book.get("rating")]` of `LibraryAgent.get_statistics`. -/
def rated_books (books : List Book) : List Book :=
  books.filter (fun b => truthy b.rating)

/-- Python's `round(x, 2)` (approximated for the rational model; no
theorem below depends on the tie-breaking rule). -/
def round2 (q : ℚ) : ℚ :=
  let h := q * 100
  let r := if Int.fract h = 1 / 2 then
             (if (⌊h⌋ % 2 = 0) then ⌊h⌋ else ⌊h⌋ + 1)
           else round h
  (r : ℚ) / 100

/-- The dict returned by `LibraryAgent.get_statistics`. -/
structure Stats where
  total_books : Nat
  read : Nat
  reading : Nat
  unread : Nat
  average_rating : ℚ
  unique_genres : Nat
  unique_authors : Nat
deriving DecidableEq, Repr

/-- `LibraryAgent.get_statistics`: counts, mean of truthy ratings (0 when
none), distinct genre/author counts. -/
def get_statistics (books : List Book) : Stats :=
  let rated := rated_books books
  { total_books := books.length,
    read := (books.filter (fun b => b.status == "read")).length,
    reading := (books.filter (fun b => b.status == "reading")).length,
    unread := (books.filter (fun b => b.status == "unread")).length,
    average_rating :=
      round2 (if rated.isEmpty then 0
              else (rated.map ratingKey).sum / (rated.length : ℚ)),
    unique_genres := (books.map (fun b => b.genre)).dedup.length,
    unique_authors := (books.map (fun b => b.author)).dedup.length }

/-- The indexed loop of `LibraryAgent.delete_book`: pop the first record
with the given id, or report that none exists. -/
def remove_first (books : List Book) (book_id : Int) : Option (List Book) :=
  match books with
  | [] => none
  | b :: bs =>
      if b.id = book_id then some bs
      else (remove_first bs book_id).map (fun t => b :: t)

/-- `LibraryAgent.delete_book`: remove the first match and persist, or
return `False` leaving everything untouched. -/
def delete_book (st : LibState) (book_id : Int) : Bool × LibState :=
  match remove_first st.books book_id with
  | some books2 => (true, { books := books2, file := writeFile books2 })
  | none => (false, st)

end Lib

namespace Mov

/-- One movie record, the fixed schema of the dicts built by
`MovieAgent.add_movie`. -/
structure Movie where
  title : String
  genre : String
  rating : ℚ
  year : Int
  watched : Bool
deriving DecidableEq, Repr

/-- State of the movie agent's backing file.  Valid JSON content is
modelled at the parsed-list level; the serialization layer itself is
verified once, on the library agent's richer record type. -/
inductive MovFile where
  | absent : MovFile
  | malformed : MovFile
  | content (ms : List Movie) : MovFile

/-- `MovieAgent.load_movies`: `json.load` guarded by
`except (json.JSONDecodeError, FileNotFoundError): return []`. -/
def load_movies (fs : MovFile) : List Movie :=
  match fs with
  | MovFile.absent => []
  | MovFile.malformed => []
  | MovFile.content ms => ms

/-- `MovieAgent.add_movie`: no validation; build the dict, append,
save, return it. -/
def add_movie (movies : List Movie) (title : String) (genre : String)
    (rating : ℚ) (year : Int) (watched : Bool) : Movie × List Movie :=
  let m : Movie := { title := title, genre := genre, rating := rating,
                     year := year, watched := watched }
  (m, movies ++ [m])

/-- `MovieAgent.recommend`: the movies with rating at least the
threshold, in their original order. -/
def recommend (movies : List Movie) (min_rating : ℚ) : List Movie :=
  movies.filter (fun m => decide (min_rating ≤ m.rating))

/-- `MovieAgent.delete_movie`: rebuild the list keeping the titles that
do not match case-insensitively; report whether the list shrank. -/
def delete_movie (movies : List Movie) (title : String) : Bool × List Movie :=
  let kept := movies.filter (fun m => !(pyLower m.title == pyLower title))
  (decide (kept.length < movies.length), kept)

end Mov

section Theorems

open Lib Mov

theorem decodeBook_encodeBook (b : Book) : decodeBook (encodeBook b) = some b := by
  cases b with
  | mk i t a g y ib r st ad no =>
      cases y <;> cases ib <;> cases r <;> rfl

theorem decodeBooks_encodeBooks (books : List Book) :
    decodeBooks (encodeBooks books) = some books := by
  induction books with
  | nil => rfl
  | cons b bs ih =>
      simp only [encodeBooks, List.map_cons, decodeBooks, decodeBookList,
        decodeBook_encodeBook, Option.bind_eq_bind, Option.some_bind]
      simp only [encodeBooks, decodeBooks] at ih
      simp [ih]

theorem foldl_max_le_init (bs : List Book) (init : Int) :
    init ≤ bs.foldl (fun m x => max m x.id) init := by
  induction bs generalizing init with
  | nil => simp
  | cons b bs ih =>
      simp only [List.foldl_cons]
      exact le_trans (le_max_left init b.id) (ih (max init b.id))

theorem mem_le_foldl_max (bs : List Book) (init : Int) :
    ∀ x ∈ bs, x.id ≤ bs.foldl (fun m x => max m x.id) init := by
  induction bs generalizing init with
  | nil => simp
  | cons b bs ih =>
      intro x hx
      simp only [List.foldl_cons]
      rcases List.mem_cons.mp hx with h | h
      · subst h
        exact le_trans (le_max_right init x.id) (foldl_max_le_init bs (max init x.id))
      · exact ih (max init b.id) x h

theorem id_lt_generate (books : List Book) :
    ∀ x ∈ books, x.id < generate_book_id books := by
  intro x hx
  cases books with
  | nil => cases hx
  | cons b bs =>
      have hle : x.id ≤ max_id b bs := by
        rcases List.mem_cons.mp hx with h | h
        · subst h
          exact foldl_max_le_init bs x.id
        · exact mem_le_foldl_max bs b.id x h
      simpa [generate_book_id, max_id] using Int.lt_add_one_iff.mpr hle

theorem generate_append (books : List Book) (x : Book)
    (hx : x.id = generate_book_id books) :
    generate_book_id (books ++ [x]) = x.id + 1 := by
  cases books with
  | nil => simp [generate_book_id, max_id]
  | cons b bs =>
      have h1 : max_id b (bs ++ [x]) = max (max_id b bs) x.id := by
        simp [max_id, List.foldl_append]
      have h2 : x.id = max_id b bs + 1 := by
        simpa [generate_book_id] using hx
      simp only [List.cons_append, generate_book_id, h1, h2]
      omega

theorem get_book_by_id_append_new (books : List Book) (b : Book)
    (h : ∀ x ∈ books, x.id ≠ b.id) :
    get_book_by_id (books ++ [b]) b.id = some b := by
  unfold get_book_by_id
  rw [List.find?_append]
  have h1 : books.find? (fun x => x.id == b.id) = none :=
    List.find?_eq_none.mpr (fun x hx => by simpa using h x hx)
  simp [h1]

theorem insertDesc_perm (a : Book) (l : List Book) :
    (insertDesc a l).Perm (a :: l) := by
  induction l with
  | nil => exact List.Perm.refl _
  | cons b bs ih =>
      unfold insertDesc
      split
      · exact (ih.cons b).trans (List.Perm.swap a b bs)
      · exact List.Perm.refl _

theorem sortDesc_perm (l : List Book) : (sortDesc l).Perm l := by
  induction l with
  | nil => exact List.Perm.refl _
  | cons x xs ih =>
      simp only [sortDesc, List.foldr_cons]
      exact (insertDesc_perm x (List.foldr insertDesc [] xs)).trans (ih.cons x)

theorem insertDesc_pairwise (a : Book) (l : List Book)
    (h : List.Pairwise (fun x y => ratingKey y ≤ ratingKey x) l) :
    List.Pairwise (fun x y => ratingKey y ≤ ratingKey x) (insertDesc a l) := by
  induction l with
  | nil => simp [insertDesc]
  | cons b bs ih =>
      rw [List.pairwise_cons] at h
      unfold insertDesc
      split
      · rename_i hab
        rw [List.pairwise_cons]
        constructor
        · intro x hx
          rcases List.mem_cons.mp ((insertDesc_perm a bs).mem_iff.mp hx) with rfl | hx2
          · exact le_of_lt hab
          · exact h.1 x hx2
        · exact ih h.2
      · rename_i hab
        rw [List.pairwise_cons]
        refine ⟨?_, List.pairwise_cons.mpr h⟩
        intro x hx
        rcases List.mem_cons.mp hx with rfl | hx2
        · exact le_of_not_lt hab
        · exact le_trans (h.1 x hx2) (le_of_not_lt hab)

theorem sortDesc_pairwise (l : List Book) :
    List.Pairwise (fun x y => ratingKey y ≤ ratingKey x) (sortDesc l) := by
  induction l with
  | nil => simp [sortDesc]
  | cons x xs ih =>
      simp only [sortDesc, List.foldr_cons]
      exact insertDesc_pairwise x _ ih

theorem remove_first_eq_none (books : List Book) (bid : Int)
    (h : ∀ b ∈ books, b.id ≠ bid) : remove_first books bid = none := by
  induction books with
  | nil => rfl
  | cons b bs ih =>
      unfold remove_first
      rw [if_neg (h b (List.mem_cons_self b bs)),
        ih (fun x hx => h x (List.mem_cons_of_mem b hx))]
      rfl

theorem set_rating_map_id (books : List Book) (bid : Int) (r : ℚ) :
    (set_rating_first books bid r).map Book.id = books.map Book.id := by
  induction books with
  | nil => rfl
  | cons b bs ih =>
      unfold set_rating_first
      split
      · simp
      · simp [ih]

theorem set_rating_first_spec (books : List Book) (bid : Int) (r : ℚ)
    (hno : (books.map Book.id).Nodup) :
    ∀ x ∈ set_rating_first books bid r, x.id = bid → x.rating = some r := by
  induction books with
  | nil =>
      intro x hx
      cases hx
  | cons b bs ih =>
      simp only [List.map_cons, List.nodup_cons] at hno
      intro x hx hxid
      unfold set_rating_first at hx
      by_cases hb : b.id = bid
      · rw [if_pos hb] at hx
        rcases List.mem_cons.mp hx with rfl | hx2
        · rfl
        · have hmm : x.id ∈ bs.map Book.id := List.mem_map_of_mem Book.id hx2
          rw [hxid, ← hb] at hmm
          exact absurd hmm hno.1
      · rw [if_neg hb] at hx
        rcases List.mem_cons.mp hx with rfl | hx2
        · exact absurd hxid hb
        · exact ih hno.2 x hx2 hxid

/-- C3: for every in-memory collection, `save_books` followed by
`load_books` on the resulting backing file yields a collection equal to
the one before saving — same records, same field values, same order. -/
theorem C3_save_load_round_trip (st : LibState) :
    load_books (save_books st).2.file = st.books := by
  simp [save_books, writeFile, load_books, decodeBooks_encodeBooks]

/-- C4: for every collection state and every field input, `add_book`
followed by `get_book_by_id` on the new record's id returns exactly the
record `add_book` returned. -/
theorem C4_add_then_get (st : LibState) (title author genre : String)
    (year : Option Int) (isbn : Option String) (today : String) :
    get_book_by_id (add_book st title author genre year isbn today).2.books
      (add_book st title author genre year isbn today).1.id =
      some (add_book st title author genre year isbn today).1 := by
  simp only [add_book]
  exact get_book_by_id_append_new st.books _
    (fun x hx => ne_of_lt (id_lt_generate st.books x hx))

/-- C5: `rate_book` with a rating outside the closed interval `[0, 5]`
returns `False` and leaves the whole agent state — every record's stored
rating included — unchanged; nothing is persisted. -/
theorem C5_out_of_range_rating_rejected (st : LibState) (book_id : Int)
    (r : ℚ) (h : ¬(0 ≤ r ∧ r ≤ 5)) :
    rate_book st book_id r = (false, st) := by
  simp [rate_book, h]

theorem C5_witness :
    rate_book { books := [], file := FileSt.absent } 1 6 =
      (false, { books := [], file := FileSt.absent }) :=
  C5_out_of_range_rating_rejected { books := [], file := FileSt.absent } 1 6
    (by decide)

/-- C7: `load_books` and `load_movies` are total functions of the file
state — never an exception — and return the empty collection both when
the backing file is absent and when its content is not valid JSON. -/
theorem C7_load_missing_or_malformed :
    load_books FileSt.absent = [] ∧ load_books FileSt.malformed = [] ∧
    load_movies MovFile.absent = [] ∧ load_movies MovFile.malformed = [] :=
  ⟨rfl, rfl, rfl, rfl⟩

/-- C1 (counterexample): identifiers ARE reused after delete.  Starting
from the empty collection, `add_book` assigns id 1; after `delete_book 1`
succeeds, the next `add_book` assigns id 1 again. -/
theorem C1_counterexample :
    (add_book { books := [], file := FileSt.absent } "A" "B" "C" none none
      "2024-01-01").1.id = 1 ∧
    (delete_book (add_book { books := [], file := FileSt.absent } "A" "B" "C"
      none none "2024-01-01").2 1).1 = true ∧
    (add_book (delete_book (add_book { books := [], file := FileSt.absent }
      "A" "B" "C" none none "2024-01-01").2 1).2 "D" "E" "F" none none
      "2024-01-02").1.id = 1 := by
  refine ⟨by decide, by decide, by decide⟩

/-- C1 (amended): the identifier assigned by `add_book` is 1 on an empty
collection and otherwise strictly greater than every existing identifier
(namely max existing + 1), identifiers from successive `add_book` calls
increase by exactly 1, and an identifier is never reused while some
record with an equal or greater identifier remains; deleting the record
holding the maximum identifier, however, frees that identifier for
reuse. -/
theorem C1_amended_id_assignment (st : LibState)
    (t a g : String) (y : Option Int) (i : Option String) (d : String)
    (t2 a2 g2 : String) (y2 : Option Int) (i2 : Option String) (d2 : String) :
    (st.books = [] → (add_book st t a g y i d).1.id = 1) ∧
    (∀ x ∈ st.books, x.id < (add_book st t a g y i d).1.id) ∧
    (add_book (add_book st t a g y i d).2 t2 a2 g2 y2 i2 d2).1.id =
      (add_book st t a g y i d).1.id + 1 ∧
    (∀ j : Int, (∃ x ∈ st.books, j ≤ x.id) →
      (add_book st t a g y i d).1.id ≠ j) := by
  refine ⟨?_, ?_, ?_, ?_⟩
  · intro h
    simp [add_book, h, generate_book_id]
  · intro x hx
    simpa [add_book] using id_lt_generate st.books x hx
  · simp only [add_book]
    exact generate_append st.books _ rfl
  · rintro j ⟨x, hx, hj⟩
    have hlt := id_lt_generate st.books x hx
    simp only [add_book] at *
    omega

theorem C1_amended_witness :
    (add_book { books := [], file := FileSt.absent } "A" "B" "C" none none
      "2024-01-01").1.id = 1 :=
  (C1_amended_id_assignment { books := [], file := FileSt.absent }
    "A" "B" "C" none none "2024-01-01" "D" "E" "F" none none
    "2024-01-02").1 rfl

/-- C2 (counterexample): `add_book` performs no validation.  With a
whitespace-only title and an empty author it still appends a record (the
collection grows from 0 to 1), persists the new collection, and returns
the record to the caller instead of a false/None signal. -/
theorem C2_counterexample :
    (add_book { books := [], file := FileSt.absent } " " "" "Unknown" none
      none "2024-01-01").2.books.length = 1 ∧
    (add_book { books := [], file := FileSt.absent } " " "" "Unknown" none
      none "2024-01-01").1.title = "" ∧
    (add_book { books := [], file := FileSt.absent } " " "" "Unknown" none
      none "2024-01-01").1.author = "" ∧
    (add_book { books := [], file := FileSt.absent } " " "" "Unknown" none
      none "2024-01-01").2.file =
      writeFile (add_book { books := [], file := FileSt.absent } " " ""
        "Unknown" none none "2024-01-01").2.books :=
  ⟨by decide, by decide, by decide, rfl⟩

/-- C2 (amended): for every input whose required fields (title, author)
are empty or whitespace-only after trimming, `add_book` does NOT reject
the request: it appends a new record with empty trimmed fields to the
collection, persists the enlarged collection, and returns the new record
to the caller. -/
theorem C2_amended_no_validation (st : LibState) (t a g : String)
    (y : Option Int) (i : Option String) (d : String)
    (ht : pyStrip t = "") (ha : pyStrip a = "") :
    (add_book st t a g y i d).2.books =
      st.books ++ [(add_book st t a g y i d).1] ∧
    (add_book st t a g y i d).1.title = "" ∧
    (add_book st t a g y i d).1.author = "" ∧
    (add_book st t a g y i d).2.file =
      writeFile (add_book st t a g y i d).2.books := by
  refine ⟨rfl, ?_, ?_, rfl⟩
  · simp [add_book, ht]
  · simp [add_book, ha]

theorem C2_amended_witness :
    (add_book { books := [], file := FileSt.absent } " " "" "Unknown" none
      none "2024-01-01").1.title = "" :=
  (C2_amended_no_validation { books := [], file := FileSt.absent } " " ""
    "Unknown" none none "2024-01-01" (by decide) (by decide)).2.1

/-- C6 (counterexample): a record whose rating is set to exactly 0 has
its rating set and at least the threshold 0, yet `get_recommendations`
excludes it (Python truthiness of `book.get("rating")` treats `0.0` like
`None`), so the result is empty where the claim requires the record. -/
theorem C6_counterexample :
    ({ id := 1, title := "T", author := "A", genre := "X", year := none,
       isbn := none, rating := some 0, status := "unread",
       added_date := "2024-01-01", notes := "" } : Book).rating = some 0 ∧
    ((0 : ℚ) ≤ 0) ∧
    get_recommendations
      [{ id := 1, title := "T", author := "A", genre := "X", year := none,
         isbn := none, rating := some 0, status := "unread",
         added_date := "2024-01-01", notes := "" }] none 0 = [] := by
  refine ⟨rfl, by decide, by decide⟩

/-- C6 (amended): `get_recommendations` returns exactly the records
whose rating is set AND nonzero and at least the threshold and (when a
category is given) whose category matches it case-insensitively, sorted
by rating descending; records with no rating — or rating exactly 0 —
never appear in the result. -/
theorem C6_amended_recommendations (books : List Book)
    (genre : Option String) (m : ℚ) :
    (get_recommendations books genre m).Perm
      (books.filter (recOk genre m)) ∧
    List.Pairwise (fun x y => ratingKey y ≤ ratingKey x)
      (get_recommendations books genre m) ∧
    (∀ b, b ∈ get_recommendations books genre m ↔
      b ∈ books ∧ (∃ q, b.rating = some q ∧ q ≠ 0 ∧ m ≤ q) ∧
        (∀ g, genre = some g → pyLower b.genre = pyLower g)) := by
  refine ⟨sortDesc_perm _, sortDesc_pairwise _, ?_⟩
  intro b
  rw [get_recommendations, (sortDesc_perm _).mem_iff, List.mem_filter]
  cases hr : b.rating with
  | none =>
      simp [recOk, truthy, hr]
  | some q =>
      cases genre with
      | none =>
          simp [recOk, truthy, ratingKey, hr, and_assoc]
      | some g =>
          simp [recOk, truthy, ratingKey, hr, and_assoc]

theorem C6_amended_witness :
    ({ id := 1, title := "T", author := "A", genre := "X", year := none,
       isbn := none, rating := some 5, status := "unread",
       added_date := "2024-01-01", notes := "" } : Book) ∈
      get_recommendations
        [{ id := 1, title := "T", author := "A", genre := "X", year := none,
           isbn := none, rating := some 5, status := "unread",
           added_date := "2024-01-01", notes := "" }] none 4 :=
  ((C6_amended_recommendations
    [{ id := 1, title := "T", author := "A", genre := "X", year := none,
       isbn := none, rating := some 5, status := "unread",
       added_date := "2024-01-01", notes := "" }] none 4).2.2 _).mpr
    ⟨by simp, ⟨5, rfl, by decide, by decide⟩,
     fun g hg => Option.noConfusion hg⟩

/-- C8: deleting by a key that matches no record reports failure and
leaves the collection — length and contents — unchanged, for the library
agent (id key) and for the movie agent (case-insensitive title key). -/
theorem C8_delete_missing_key (st : LibState) (bid : Int)
    (ms : List Movie) (t : String)
    (hb : ∀ b ∈ st.books, b.id ≠ bid)
    (hm : ∀ m ∈ ms, pyLower m.title ≠ pyLower t) :
    delete_book st bid = (false, st) ∧ delete_movie ms t = (false, ms) := by
  constructor
  · simp [delete_book, remove_first_eq_none st.books bid hb]
  · have hk : ms.filter (fun m => !(pyLower m.title == pyLower t)) = ms :=
      List.filter_eq_self.mpr (fun m hmm => by simpa using hm m hmm)
    simp [delete_movie, hk]

theorem C8_witness :
    delete_book { books := [], file := FileSt.absent } 1 =
      (false, { books := [], file := FileSt.absent }) :=
  (C8_delete_missing_key { books := [], file := FileSt.absent } 1 [] "x"
    (by simp) (by simp)).1

/-- C9: a stored rating of exactly 0 is indistinguishable from an absent
rating in the derived queries.  `rate_book` accepts 0 and reports
success, setting the record's rating to 0; yet that record is excluded
from `rated_books` (the list `get_statistics` computes its rated-book
count and mean rating from) and never appears in `get_recommendations`,
for every threshold and category. -/
theorem C9_zero_rating_indistinguishable (st : LibState) (bid : Int)
    (hno : (st.books.map Book.id).Nodup)
    (hmem : ∃ b ∈ st.books, b.id = bid) :
    (rate_book st bid 0).1 = true ∧
    (∀ x ∈ (rate_book st bid 0).2.books, x.id = bid → x.rating = some 0) ∧
    (∀ x ∈ rated_books (rate_book st bid 0).2.books, x.id ≠ bid) ∧
    (∀ genre m, ∀ x ∈
      get_recommendations (rate_book st bid 0).2.books genre m,
      x.id ≠ bid) := by
  obtain ⟨b, hb, hbid⟩ := hmem
  have hfind : (get_book_by_id st.books bid).isSome :=
    List.find?_isSome.mpr ⟨b, hb, by simp [hbid]⟩
  obtain ⟨fb, hfb⟩ := Option.isSome_iff_exists.mp hfind
  have hrb : rate_book st bid 0 =
      (true, { books := set_rating_first st.books bid 0,
               file := writeFile (set_rating_first st.books bid 0) }) := by
    simp [rate_book, hfb]
  rw [hrb]
  have hspec := set_rating_first_spec st.books bid 0 hno
  refine ⟨rfl, hspec, ?_, ?_⟩
  · intro x hx hxid
    obtain ⟨hx2, htr⟩ := List.mem_filter.mp hx
    have hr0 := hspec x hx2 hxid
    rw [hr0] at htr
    simp [truthy] at htr
  · intro genre m x hx hxid
    rw [get_recommendations, (sortDesc_perm _).mem_iff] at hx
    obtain ⟨hx2, hok⟩ := List.mem_filter.mp hx
    have hr0 := hspec x hx2 hxid
    simp [recOk, truthy, hr0] at hok

theorem C9_witness :
    (rate_book
      { books := [{ id := 1, title := "T", author := "A", genre := "X",
                    year := none, isbn := none, rating := some 3,
                    status := "unread", added_date := "2024-01-01",
                    notes := "" }],
        file := FileSt.absent } 1 0).1 = true :=
  (C9_zero_rating_indistinguishable
    { books := [{ id := 1, title := "T", author := "A", genre := "X",
                  year := none, isbn := none, rating := some 3,
                  status := "unread", added_date := "2024-01-01",
                  notes := "" }],
      file := FileSt.absent } 1 (by simp)
    ⟨{ id := 1, title := "T", author := "A", genre := "X", year := none,
       isbn := none, rating := some 3, status := "unread",
       added_date := "2024-01-01", notes := "" }, by simp, rfl⟩).1

/-- C10: `delete_movie` removes every record whose title matches the
argument case-insensitively (possibly several in one call), keeps the
remaining records in their original relative order (a sublist with the
per-record multiplicities of all non-matching records preserved), and
returns `True` if and only if at least one record was removed. -/
theorem C10_delete_movie_semantics (ms : List Movie) (t : String) :
    ((delete_movie ms t).1 = true ↔
      ∃ m ∈ ms, pyLower m.title = pyLower t) ∧
    (delete_movie ms t).2.Sublist ms ∧
    (∀ m ∈ (delete_movie ms t).2, pyLower m.title ≠ pyLower t) ∧
    (∀ m : Movie, pyLower m.title ≠ pyLower t →
      (delete_movie ms t).2.count m = ms.count m) := by
  refine ⟨?_, ?_, ?_, ?_⟩
  · simp only [delete_movie, decide_eq_true_eq]
    constructor
    · intro h
      by_contra hne
      push_neg at hne
      have heq : ms.filter (fun m => !(pyLower m.title == pyLower t)) = ms :=
        List.filter_eq_self.mpr (fun m hm => by simpa using hne m hm)
      rw [heq] at h
      exact Nat.lt_irrefl _ h
    · rintro ⟨m, hm, hmt⟩
      have hle := List.length_filter_le
        (fun m => !(pyLower m.title == pyLower t)) ms
      have hne : (ms.filter
          (fun m => !(pyLower m.title == pyLower t))).length ≠ ms.length := by
        intro heq
        have := List.filter_length_eq_length.mp heq m hm
        simp [hmt] at this
      exact Nat.lt_of_le_of_ne hle hne
  · exact List.filter_sublist ms
  · intro m hm
    have := (List.mem_filter.mp hm).2
    simpa using this
  · intro m hmt
    exact List.count_filter (by simpa using hmt)

theorem C10_witness :
    (delete_movie
      [{ title := "Up", genre := "g", rating := 5, year := 2000,
         watched := false }] "UP").1 = true :=
  (C10_delete_movie_semantics
    [{ title := "Up", genre := "g", rating := 5, year := 2000,
       watched := false }] "UP").1.mpr
    ⟨{ title := "Up", genre := "g", rating := 5, year := 2000,
       watched := false }, by simp, by decide⟩

end Theorems
